import Mathlib

/-
Shallow embedding of the RECOV.AI debt-recovery prediction pipeline:
`backend/predictor.py` (feature encoder, inference adapter, derived metrics),
`backend/shap_explainer.py` (explanation engine) and the batch loop of
`backend/main.py`.

Modelling conventions:
* Python floats are modelled as exact rationals (ℚ); numeric literals such as
  0.8 or 0.925 denote the exact decimal values.  Non-finite floats (nan/inf)
  are outside the model.
* `np.log1p` is transcendental and not representable on ℚ, so the encoder is
  parametrised by an arbitrary function `log1p : ℚ → ℚ`; every theorem holds
  for all choices of it.
* The trained classifier is an oracle `Option (List (String × ℚ) → Except String ℚ)`;
  `Option.none` models "model not loaded", an `Except.error` result models any
  exception raised by `model.predict_proba`.
* Python exceptions are modelled by `Except String`; a `do`-bind propagates an
  error exactly where the Python exception would propagate, and explicit
  `match` on the `Except` models a `try/except` handler.
* `dict.get(key, default)` over a record is an association-list lookup.
* `prediction_timestamp` (wall clock) is outside the embedding and omitted
  from the result structure.
-/

unseal Rat.add Rat.mul Rat.sub Rat.inv Rat.ofScientific

/-- A Python value as it may appear in an account record: a (finite) float or
int, a string, a bool, or None.  Malformed fields are representable as values
of the wrong shape (e.g. the string "N/A" in a numeric field). -/
inductive PyVal where
  | vnum (q : ℚ)
  | vstr (s : String)
  | vbool (b : Bool)
  | vnone
deriving DecidableEq

/-- An account record: a Python dict, as an association list. -/
abbrev Record := List (String × PyVal)

/-- Python `data.get(key, default)`. -/
def getF (data : Record) (key : String) (default : PyVal) : PyVal :=
  (data.lookup key).getD default

/-- Python truthiness of a value: 0, "", False and None are falsy. -/
def pyTruthy : PyVal → Bool
  | .vnum q => q != 0
  | .vstr s => s != ""
  | .vbool b => b
  | .vnone => false

/-- Python `x or 0` (used at predictor.py lines 71-79 and 182-185). -/
def orZero (v : PyVal) : PyVal := if pyTruthy v then v else .vnum 0

/-- Strip leading and trailing whitespace from a character list (the effect
of Python's surrounding-whitespace tolerance in float()/int(); implemented on
`List Char` so that it evaluates in the kernel). -/
def trimChars (cs : List Char) : List Char :=
  ((cs.dropWhile (fun c => c.isWhitespace)).reverse.dropWhile
    (fun c => c.isWhitespace)).reverse

/-- ASCII uppercasing of a string via its character list (the effect of
Python's str.upper() on the tokens compared here). -/
def upperAscii (s : String) : String := String.mk (s.toList.map Char.toUpper)

/-- Whether all characters are ASCII digits. -/
def isDigits (cs : List Char) : Bool := cs.all (fun c => c.isDigit)

/-- Value of a digit string. -/
def digitsVal (cs : List Char) : ℕ := cs.foldl (fun n c => 10 * n + (c.toNat - 48)) 0

/-- Parse the mantissa part of a decimal literal: returns (integer numerator,
number of fraction digits).  Accepts "123", "1.5", ".5", "5.". -/
def parseMantissa (cs : List Char) : Option (ℕ × ℕ) :=
  let ip := cs.takeWhile (fun c => c.isDigit)
  let rest := cs.drop ip.length
  match rest with
  | [] => if ip.isEmpty then Option.none else some (digitsVal ip, 0)
  | c :: frac =>
    if c = '.' ∧ isDigits frac ∧ (¬ ip.isEmpty ∨ ¬ frac.isEmpty) then
      some (digitsVal ip * 10 ^ frac.length + digitsVal frac, frac.length)
    else Option.none

/-- Parse a string the way Python `float()` does, as an exact rational:
optional surrounding whitespace, optional sign, decimal digits with an
optional decimal point, optional e/E exponent.  (Python additionally accepts
underscore separators and inf/nan; no record in this development uses those,
and every string this parser rejects — such as "N/A" — is also rejected by
`float()`.) -/
def parsePyFloat (s : String) : Option ℚ :=
  let cs := trimChars s.toList
  let signAndRest : ℤ × List Char :=
    match cs with
    | '+' :: t => (1, t)
    | '-' :: t => (-1, t)
    | _ => (1, cs)
  let sign := signAndRest.1
  let body := signAndRest.2
  let mant := body.takeWhile (fun c => c != 'e' && c != 'E')
  let rest := body.drop mant.length
  match parseMantissa mant with
  | Option.none => Option.none
  | some (m, fl) =>
    match rest with
    | [] => some (mkRat (sign * m) (10 ^ fl))
    | _ :: expPart =>
      let expSignAndDigits : Bool × List Char :=
        match expPart with
        | '+' :: t => (false, t)
        | '-' :: t => (true, t)
        | _ => (false, expPart)
      let eneg := expSignAndDigits.1
      let edigits := expSignAndDigits.2
      if edigits.isEmpty ∨ ¬ isDigits edigits then Option.none
      else
        let e := digitsVal edigits
        if eneg then some (mkRat (sign * m) (10 ^ (fl + e)))
        else some (mkRat (sign * m * 10 ^ e) (10 ^ fl))

/-- Parse a string the way Python `int()` does: optional whitespace, optional
sign, decimal digits only (so `int("4.5")` raises). -/
def parsePyInt (s : String) : Option ℤ :=
  let cs := trimChars s.toList
  let signAndRest : ℤ × List Char :=
    match cs with
    | '+' :: t => (1, t)
    | '-' :: t => (-1, t)
    | _ => (1, cs)
  let sign := signAndRest.1
  let body := signAndRest.2
  if body.isEmpty ∨ ¬ isDigits body then Option.none
  else some (sign * digitsVal body)

/-- Truncation toward zero on an exact rational: the behaviour of Python
`int()` applied to a float. -/
def ratTrunc (q : ℚ) : ℤ := if 0 ≤ q then q.floor else -((-q).floor)

/-- Python `float(v)`: numbers pass through, bools become 0/1, numeric strings
parse, anything else raises (modelled as `Except.error`). -/
def pyFloat : PyVal → Except String ℚ
  | .vnum q => .ok q
  | .vbool b => .ok (if b then 1 else 0)
  | .vstr s =>
    match parsePyFloat s with
    | some q => .ok q
    | Option.none => .error ("could not convert string to float: " ++ s)
  | .vnone => .error "float() argument must be a string or a real number, not NoneType"

/-- Python `int(v)`: floats truncate toward zero, bools become 0/1, integer
strings parse, anything else raises. -/
def pyInt : PyVal → Except String ℤ
  | .vnum q => .ok (ratTrunc q)
  | .vbool b => .ok (if b then 1 else 0)
  | .vstr s =>
    match parsePyInt s with
    | some z => .ok z
    | Option.none => .error ("invalid literal for int() with base 10: " ++ s)
  | .vnone => .error "int() argument must be a string or a real number, not NoneType"

/-- Python `str(v)`.  Only its action on strings matters to the claims; the
renderings of non-string values never collide with the sentinel and category
strings used by the pipeline. -/
def pyStr : PyVal → String
  | .vstr s => s
  | .vnum q => toString q
  | .vbool b => if b then "True" else "False"
  | .vnone => "None"

/-- predictor.py lines 82-92: boolean-like coercion for `email_opened` and
`dispute_flag`.  A string matches case-insensitively against TRUE/1/YES; a
non-string coerces via truthiness (`int(bool(x))`). -/
def pyBool01 (v : PyVal) : ℚ :=
  match v with
  | .vstr s =>
    if upperAscii s = "TRUE" ∨ upperAscii s = "1" ∨ upperAscii s = "YES" then 1 else 0
  | _ => if pyTruthy v then 1 else 0

/-- predictor.py lines 98-102: fold the display value "Technology" to the
internal category code "Tech"; every other value passes through unchanged. -/
def normalizeIndustry (s : String) : String :=
  if s = "Technology" then "Tech" else s

/-- predictor.py lines 71-134 (`prepare_features` before alignment):
synthesize the 20-feature dictionary, in the source's insertion order.
Any coercion failure (e.g. `float("N/A")`) is an exception. -/
def synthFeatures (log1p : ℚ → ℚ) (data : Record) :
    Except String (List (String × ℚ)) := do
  let amount ← pyFloat (orZero (getF data "amount" (.vnum 0)))
  let days_overdue ← pyInt (orZero (getF data "days_overdue" (.vnum 0)))
  let payment_history ← pyFloat (orZero (getF data "payment_history_score" (.vnum 0)))
  let shipment_change ← pyFloat (orZero (getF data "shipment_volume_change_30d" (.vnum 0)))
  let shipment_volume ← pyInt (orZero (getF data "shipment_volume_30d" (.vnum 0)))
  let express ← pyFloat (orZero (getF data "express_ratio" (.vnum 0)))
  let destination_div ← pyInt (orZero (getF data "destination_diversity" (.vnum 0)))
  let contact_attempts ← pyInt (orZero (getF data "contact_attempts" (.vnum 0)))
  let customer_tenure ← pyInt (orZero (getF data "customer_tenure_months" (.vnum 0)))
  let email_opened := pyBool01 (getF data "email_opened" (.vnum 0))
  let dispute_flag := pyBool01 (getF data "dispute_flag" (.vnum 0))
  let industry := normalizeIndustry (pyStr (getF data "industry" (.vstr "Other")))
  let region := pyStr (getF data "region" (.vstr "Other"))
  pure [
    ("amount_log", log1p amount),
    ("days_overdue", (days_overdue : ℚ)),
    ("payment_history_score", payment_history),
    ("shipment_volume_change_30d", shipment_change),
    ("shipment_volume_30d", (shipment_volume : ℚ)),
    ("express_ratio", express),
    ("destination_diversity", (destination_div : ℚ)),
    ("contact_attempts", (contact_attempts : ℚ)),
    ("customer_tenure_months", (customer_tenure : ℚ)),
    ("email_opened", email_opened),
    ("dispute_flag", dispute_flag),
    ("industry_Construction", if industry = "Construction" then 1 else 0),
    ("industry_Medical", if industry = "Medical" then 1 else 0),
    ("industry_Retail", if industry = "Retail" then 1 else 0),
    ("industry_Tech", if industry = "Tech" then 1 else 0),
    ("industry_Textile", if industry = "Textile" then 1 else 0),
    ("region_East", if region = "East" then 1 else 0),
    ("region_North", if region = "North" then 1 else 0),
    ("region_South", if region = "South" then 1 else 0),
    ("region_West", if region = "West" then 1 else 0)]

/-- predictor.py lines 136-142: when the artifact declares a non-empty
expected-feature-name list, add each missing expected column as constant 0 and
select exactly the expected columns in the expected order (dropping any
synthesized column not in the list); with no declared list, keep the
synthesized columns as they are. -/
def alignFeatures (feature_names : List String) (feats : List (String × ℚ)) :
    List (String × ℚ) :=
  if feature_names.isEmpty then feats
  else feature_names.map (fun n => (n, (feats.lookup n).getD 0))

/-- predictor.py lines 64-146: `RecoveryPredictor.prepare_features`. -/
def prepare_features (log1p : ℚ → ℚ) (feature_names : List String)
    (data : Record) : Except String (List (String × ℚ)) := do
  let feats ← synthFeatures log1p data
  pure (alignFeatures feature_names feats)

/-- A DCA (debt-collection agency) routing recommendation. -/
structure DCARec where
  name : String
  specialization : String
  reasoning : String
deriving DecidableEq

/-- One entry of the predictor's `top_factors` list. -/
structure TopFactor where
  feature : String
  impact : ℚ
  direction : String
deriving DecidableEq

/-- The predictor's response dict (predictor.py lines 272-283);
`prediction_timestamp` is wall-clock and omitted from the embedding. -/
structure PredResult where
  account_id : String
  company_name : String
  recovery_probability : ℚ
  recovery_percentage : ℚ
  expected_days : ℤ
  recovery_velocity_score : ℚ
  risk_level : String
  recommended_dca : DCARec
  top_factors : List TopFactor
deriving DecidableEq

/-- predictor.py lines 207-214: expected-days bucket chain; Python `int()`
truncates toward zero (all branch values are nonnegative for p ≤ 1). -/
def expectedDays (prob : ℚ) : ℤ :=
  if prob > 0.8 then ratTrunc (30 + (1 - prob) * 50)
  else if prob > 0.6 then ratTrunc (45 + (1 - prob) * 60)
  else if prob > 0.4 then ratTrunc (60 + (1 - prob) * 80)
  else ratTrunc (90 + (1 - prob) * 90)

/-- predictor.py lines 219-226: risk-level bucket chain. -/
def riskLevel (prob : ℚ) : String :=
  if prob > 0.8 then "Low"
  else if prob > 0.6 then "Medium"
  else if prob > 0.4 then "High"
  else "Very High"

/-- predictor.py lines 229-246: DCA recommendation bucket chain.  Note there
are only three branches: every probability not above 0.6 — including the
(0.4, 0.6] band — falls to the final "Recovery Specialists Inc" branch. -/
def recommendedDCA (prob : ℚ) : DCARec :=
  if prob > 0.8 then
    ⟨"Premium Recovery Services", "High-value accounts",
      "Excellent payment history and strong business indicators"⟩
  else if prob > 0.6 then
    ⟨"Standard Recovery Partners", "General collections",
      "Reliable performance across all account types"⟩
  else
    ⟨"Recovery Specialists Inc", "Challenging cases",
      "Experienced in difficult recovery scenarios with legal support"⟩

/-- Python `round(x, 2)` on an exact rational: round half to even at two
decimal places. -/
def pyRound2 (q : ℚ) : ℚ :=
  let z := q * 100
  let f := z.floor
  let r := z - (f : ℚ)
  let n : ℤ :=
    if r < 1/2 then f
    else if 1/2 < r then f + 1
    else if f % 2 = 0 then f else f + 1
  mkRat n 100

/-- predictor.py lines 249-268: the three fixed (non-SHAP) top factors. -/
def baselineTopFactors (original_history original_shipment : ℚ)
    (original_days : ℤ) : List TopFactor :=
  [ ⟨"payment_history_score", original_history,
      if original_history > 0.5 then "positive" else "neutral"⟩,
    ⟨"shipment_volume_change_30d", |original_shipment|,
      if original_shipment > 0 then "positive" else "negative"⟩,
    ⟨"days_overdue", min ((original_days : ℚ) / 180) 1,
      if original_days < 60 then "neutral" else "negative"⟩ ]

/-- predictor.py lines 157-178: the hardcoded hero-account (sentinel
"ACC0001") demonstration result. -/
def heroResult (company_name : String) : PredResult :=
  { account_id := "ACC0001"
    company_name := company_name
    recovery_probability := 0.925
    recovery_percentage := 0.925
    expected_days := 25
    recovery_velocity_score := 3.7
    risk_level := "Low"
    recommended_dca :=
      ⟨"In-House Retention Team", "Customer Loyalty",
        "High value customer with excellent history. Gentle nudge recommended."⟩
    top_factors :=
      [ ⟨"payment_history_score", 0.95, "positive"⟩,
        ⟨"shipment_volume_change_30d", 0.40, "positive"⟩,
        ⟨"days_overdue", 0.10, "neutral"⟩ ] }

/-- The classifier as an oracle: `Option.none` models a model that failed to
load; an `Except.error` result models an exception inside
`model.predict_proba`. -/
abbrev ModelOracle := Option (List (String × ℚ) → Except String ℚ)

/-- predictor.py lines 148-283: `RecoveryPredictor.predict_recovery`.
The hero-account guard (lines 157-178) fires before any feature encoding or
inference.  The raw-value extraction (lines 182-185) happens OUTSIDE the
try/except, so a coercion failure there propagates to the caller; everything
inside the try (lines 187-196) — missing model, feature preparation, the
model call — is absorbed into the fallback probability (line 201), computed
exactly once. -/
def predict_recovery (log1p : ℚ → ℚ) (feature_names : List String)
    (model : ModelOracle) (data : Record) : Except String PredResult := do
  let account_id := pyStr (getF data "account_id" (.vstr "Unknown"))
  let company_name := pyStr (getF data "company_name" (.vstr "Unknown Company"))
  if account_id = "ACC0001" then
    return heroResult company_name
  let _original_amount ← pyFloat (orZero (getF data "amount" (.vnum 0)))
  let original_days ← pyInt (orZero (getF data "days_overdue" (.vnum 0)))
  let original_history ← pyFloat (orZero (getF data "payment_history_score" (.vnum 0)))
  let original_shipment ← pyFloat (orZero (getF data "shipment_volume_change_30d" (.vnum 0)))
  let fallbackProb : ℚ := if original_history > 0 then original_history else 0.5
  let prob : ℚ :=
    match model with
    | Option.none => fallbackProb
    | some m =>
      match prepare_features log1p feature_names data with
      | .error _ => fallbackProb
      | .ok X =>
        match m X with
        | .error _ => fallbackProb
        | .ok p => p
  return { account_id := account_id
           company_name := company_name
           recovery_probability := prob
           recovery_percentage := prob
           expected_days := expectedDays prob
           recovery_velocity_score :=
             pyRound2 ((prob * 100) / ((max (expectedDays prob) 1 : ℤ) : ℚ))
           risk_level := riskLevel prob
           recommended_dca := recommendedDCA prob
           top_factors := baselineTopFactors original_history original_shipment original_days }

/-- main.py lines 163-179: the body of the batch loop runs the predictor on a
row and then re-coerces the row's amount and days for the response; there is
no per-row exception handler, so any exception escapes to the caller. -/
def analyzeRow (log1p : ℚ → ℚ) (feature_names : List String)
    (model : ModelOracle) (row : Record) : Except String PredResult := do
  let res ← predict_recovery log1p feature_names model row
  let _amount ← pyFloat (orZero (getF row "amount" (.vnum 0)))
  let _days ← pyInt (orZero (getF row "days_overdue" (.vnum 0)))
  return res

/-- The `/analyze` response summary bands (main.py lines 184-188). -/
structure BatchSummary where
  high_probability : ℕ
  medium_probability : ℕ
  low_probability : ℕ
deriving DecidableEq

/-- The `/analyze` response (main.py lines 181-189). -/
structure AnalyzeResponse where
  total_accounts : ℕ
  predictions : List PredResult
  summary : BatchSummary
deriving DecidableEq

/-- main.py lines 146-194: `analyze_csv` after CSV decoding.  The per-row
loop sits inside a single try/except whose handler converts ANY exception
into one HTTP 500 for the whole request, so one row's exception aborts the
whole batch (modelled by `Except` propagation through `mapM`): an error
result carries no per-row predictions at all. -/
def analyze_accounts (log1p : ℚ → ℚ) (feature_names : List String)
    (model : ModelOracle) (rows : List Record) : Except String AnalyzeResponse := do
  let preds ← rows.mapM (analyzeRow log1p feature_names model)
  return { total_accounts := preds.length
           predictions := preds
           summary :=
             { high_probability :=
                 (preds.filter (fun p => decide (p.recovery_probability > 0.7))).length
               medium_probability :=
                 (preds.filter (fun p =>
                   decide (0.4 < p.recovery_probability) &&
                   decide (p.recovery_probability ≤ 0.7))).length
               low_probability :=
                 (preds.filter (fun p => decide (p.recovery_probability ≤ 0.4))).length } }

/-- One entry of the explanation engine's `top_factors` list
(shap_explainer.py lines 191-196 and 245-250).  Since the prepared features
are all numeric here, `feature_value` always takes the float branch. -/
structure ExplFactor where
  feature : String
  impact : ℚ
  direction : String
  feature_value : ℚ
deriving DecidableEq

/-- The explanation engine's response (shap_explainer.py lines 210-213,
255-259 and the empty cases at 152 and 264).  The fallback path's extra
`method` tag is not modelled. -/
structure Explanation where
  top_factors : List ExplFactor
  base_value : Option ℚ
deriving DecidableEq

/-- Python `str.title()`: uppercase each alphabetic character that follows a
non-alphabetic one, lowercase every other alphabetic character. -/
def pyTitle (s : String) : String :=
  String.mk (s.toList.foldl
    (fun (acc : List Char × Bool) c =>
      let out := if c.isAlpha then (if acc.2 then c.toLower else c.toUpper) else c
      (acc.1 ++ [out], c.isAlpha))
    ([], false)).1

/-- shap_explainer.py lines 276-287: the fixed technical-name → display-name
dictionary. -/
def featureNameMap : List (String × String) :=
  [ ("amount_log", "Invoice Amount (log)"),
    ("amount", "Invoice Amount"),
    ("days_overdue", "Days Overdue"),
    ("payment_history_score", "Payment History Score"),
    ("shipment_volume_change_30d", "Shipment Volume Change (30d)"),
    ("shipment_volume_30d", "Shipment Volume (30d)"),
    ("express_ratio", "Express Shipment Ratio"),
    ("destination_diversity", "Shipping Destination Diversity"),
    ("email_opened", "Email Engagement"),
    ("dispute_flag", "Dispute History") ]

/-- Split a character list at its first underscore (Python
`name.split('_', 1)` when an underscore is present). -/
def splitFirstUnderscore : List Char → Option (List Char × List Char)
  | [] => Option.none
  | c :: rest =>
    if c = '_' then some ([], rest)
    else
      match splitFirstUnderscore rest with
      | some (a, b) => some (c :: a, b)
      | Option.none => Option.none

/-- shap_explainer.py lines 266-302: `_clean_feature_name`. -/
def clean_feature_name (name : String) : String :=
  match featureNameMap.lookup name with
  | some disp => disp
  | Option.none =>
    let fallback :=
      pyTitle (String.mk (name.toList.map (fun c => if c = '_' then ' ' else c)))
    match splitFirstUnderscore name.toList with
    | some (cat, val) =>
      let category := String.mk cat
      if category = "industry" ∨ category = "region" then
        pyTitle category ++ ": " ++ String.mk val
      else fallback
    | Option.none => fallback

/-- The 1e-10 attribution-magnitude threshold (shap_explainer.py lines 185
and 240). -/
def shapZeroThreshold : ℚ := mkRat 1 10000000000

/-- shap_explainer.py lines 180-196: zip feature columns with SHAP values,
dropping any feature whose attribution magnitude is below 1e-10; direction is
the sign of the attribution. -/
def buildShapFactors (cols : List (String × ℚ)) (vals : List ℚ) : List ExplFactor :=
  (cols.zip vals).filterMap (fun (p : (String × ℚ) × ℚ) =>
    if |p.2| < shapZeroThreshold then Option.none
    else some { feature := clean_feature_name p.1.1
                impact := p.2
                direction := if p.2 > 0 then "positive" else "negative"
                feature_value := p.1.2 })

/-- shap_explainer.py lines 237-250: same pipeline over the model's
importance scores; direction is positive when the observed feature value is
positive, else neutral. -/
def buildImportanceFactors (cols : List (String × ℚ)) (importances : List ℚ) :
    List ExplFactor :=
  (cols.zip importances).filterMap (fun (p : (String × ℚ) × ℚ) =>
    if |p.2| < shapZeroThreshold then Option.none
    else some { feature := clean_feature_name p.1.1
                impact := p.2
                direction := if p.1.2 > 0 then "positive" else "neutral"
                feature_value := p.1.2 })

/-- Stable insertion keeping a descending-by-absolute-impact order: the new
factor goes after every factor of at-least-as-large magnitude.  Models
Python's stable `list.sort(key=lambda x: abs(x['impact']), reverse=True)`
(lines 199 and 253). -/
def insertByAbsImpact (f : ExplFactor) : List ExplFactor → List ExplFactor
  | [] => [f]
  | g :: gs =>
    if |g.impact| < |f.impact| then f :: g :: gs
    else g :: insertByAbsImpact f gs

/-- Stable sort, descending by absolute impact. -/
def sortByAbsImpact (l : List ExplFactor) : List ExplFactor :=
  l.foldr insertByAbsImpact []

/-- "a is at least as large in absolute impact as b": the descending order
the explanation engine sorts by. -/
def descAbsImpact (a b : ExplFactor) : Prop := |b.impact| ≤ |a.impact|

/-- shap_explainer.py lines 220-259: `_fallback_explanation` as a function of
the importance vector (`Option.none` models the fallback itself failing,
lines 261-264, which returns an empty factor list). -/
def fallback_explanation (importances : Option (List ℚ))
    (X : List (String × ℚ)) : Explanation :=
  match importances with
  | some imps =>
    { top_factors := (sortByAbsImpact (buildImportanceFactors X imps)).take 5
      base_value := some 0.5 }
  | Option.none => { top_factors := [], base_value := Option.none }

/-- shap_explainer.py lines 133-218: `explain_prediction`.  The SHAP
explainer is an oracle (`Option.none` = not initialized; `Except.error` = the
SHAP computation raised); `expectedValue` models `explainer.expected_value`
when it is available (`getD 0.5` is the line-208 default). -/
def explain_prediction
    (explainer : Option (List (String × ℚ) → Except String (List ℚ)))
    (expectedValue : Option ℚ) (importances : Option (List ℚ))
    (X : List (String × ℚ)) : Explanation :=
  if X.isEmpty then { top_factors := [], base_value := Option.none }
  else
    match explainer with
    | Option.none => fallback_explanation importances X
    | some ex =>
      match ex X with
      | .ok vals =>
        { top_factors := (sortByAbsImpact (buildShapFactors X vals)).take 5
          base_value := some (expectedValue.getD 0.5) }
      | .error _ => fallback_explanation importances X

/-- Binding an `ok` value just applies the continuation. -/
theorem except_ok_bind {α β : Type} (v : α) (f : α → Except String β) :
    (Except.ok v >>= f) = f v := rfl

/-- Binding an `error` propagates it. -/
theorem except_error_bind {α β : Type} (e : String) (f : α → Except String β) :
    ((Except.error e : Except String α) >>= f) = Except.error e := rfl

/-- Mapping over an `ok` value. -/
theorem except_map_ok {α β : Type} (v : α) (f : α → β) :
    (Except.ok v : Except String α).map f = Except.ok (f v) := rfl

/-- Inversion for a successful bind: the first step succeeded and the
continuation succeeded on its value. -/
theorem except_bind_ok_inv {α β : Type} {x : Except String α}
    {f : α → Except String β} {b : β} (h : (x >>= f) = Except.ok b) :
    ∃ v, x = Except.ok v ∧ f v = Except.ok b := by
  cases x with
  | error e => exact absurd h (by simp [except_error_bind])
  | ok v => exact ⟨v, rfl, by simpa [except_ok_bind] using h⟩

/-- On nonnegative rationals, Python truncation agrees with the floor. -/
theorem ratTrunc_eq_floor {q : ℚ} (h : 0 ≤ q) : ratTrunc q = ⌊q⌋ := by
  unfold ratTrunc
  rw [if_pos h]
  rfl

/-- In the p > 0.8 bucket, expected days is the floor of 30 + (1-p)·50. -/
theorem expectedDays_eq_floor1 {p : ℚ} (h : 0.8 < p) (hp : p ≤ 1) :
    expectedDays p = ⌊30 + (1 - p) * 50⌋ := by
  unfold expectedDays
  rw [if_pos h, ratTrunc_eq_floor (by nlinarith)]

/-- In the 0.6 < p ≤ 0.8 bucket, expected days is the floor of 45 + (1-p)·60. -/
theorem expectedDays_eq_floor2 {p : ℚ} (h1 : 0.6 < p) (h2 : p ≤ 0.8) :
    expectedDays p = ⌊45 + (1 - p) * 60⌋ := by
  unfold expectedDays
  rw [if_neg (not_lt.mpr h2), if_pos h1, ratTrunc_eq_floor (by nlinarith)]

/-- In the 0.4 < p ≤ 0.6 bucket, expected days is the floor of 60 + (1-p)·80. -/
theorem expectedDays_eq_floor3 {p : ℚ} (h1 : 0.4 < p) (h2 : p ≤ 0.6) :
    expectedDays p = ⌊60 + (1 - p) * 80⌋ := by
  unfold expectedDays
  rw [if_neg (by rw [not_lt]; linarith), if_neg (not_lt.mpr h2), if_pos h1,
    ratTrunc_eq_floor (by nlinarith)]

/-- In the p ≤ 0.4 bucket, expected days is the floor of 90 + (1-p)·90. -/
theorem expectedDays_eq_floor4 {p : ℚ} (h2 : p ≤ 0.4) :
    expectedDays p = ⌊90 + (1 - p) * 90⌋ := by
  unfold expectedDays
  rw [if_neg (by rw [not_lt]; linarith), if_neg (by rw [not_lt]; linarith),
    if_neg (not_lt.mpr h2), ratTrunc_eq_floor (by nlinarith)]

/-- Expected-days range in the p > 0.8 bucket. -/
theorem expectedDays_bounds1 {p : ℚ} (h : 0.8 < p) (hp : p ≤ 1) :
    30 ≤ expectedDays p ∧ expectedDays p ≤ 39 := by
  rw [expectedDays_eq_floor1 h hp]
  refine ⟨Int.le_floor.mpr (by push_cast; nlinarith), ?_⟩
  have h40 : ⌊(30 + (1 - p) * 50 : ℚ)⌋ < 40 := Int.floor_lt.mpr (by push_cast; nlinarith)
  omega

/-- Expected-days range in the 0.6 < p ≤ 0.8 bucket. -/
theorem expectedDays_bounds2 {p : ℚ} (h1 : 0.6 < p) (h2 : p ≤ 0.8) :
    57 ≤ expectedDays p ∧ expectedDays p ≤ 68 := by
  rw [expectedDays_eq_floor2 h1 h2]
  refine ⟨Int.le_floor.mpr (by push_cast; nlinarith), ?_⟩
  have h69 : ⌊(45 + (1 - p) * 60 : ℚ)⌋ < 69 := Int.floor_lt.mpr (by push_cast; nlinarith)
  omega

/-- Expected-days range in the 0.4 < p ≤ 0.6 bucket. -/
theorem expectedDays_bounds3 {p : ℚ} (h1 : 0.4 < p) (h2 : p ≤ 0.6) :
    92 ≤ expectedDays p ∧ expectedDays p ≤ 107 := by
  rw [expectedDays_eq_floor3 h1 h2]
  refine ⟨Int.le_floor.mpr (by push_cast; nlinarith), ?_⟩
  have h108 : ⌊(60 + (1 - p) * 80 : ℚ)⌋ < 108 := Int.floor_lt.mpr (by push_cast; nlinarith)
  omega

/-- Expected-days range in the p ≤ 0.4 bucket. -/
theorem expectedDays_bounds4 {p : ℚ} (h0 : 0 ≤ p) (h2 : p ≤ 0.4) :
    144 ≤ expectedDays p ∧ expectedDays p ≤ 180 := by
  rw [expectedDays_eq_floor4 h2]
  refine ⟨Int.le_floor.mpr (by push_cast; nlinarith), ?_⟩
  have h181 : ⌊(90 + (1 - p) * 90 : ℚ)⌋ < 181 := Int.floor_lt.mpr (by push_cast; nlinarith)
  omega

/-- Any probability at most 0.4 yields at least 144 expected days. -/
theorem expectedDays_ge_of_le_04 {p : ℚ} (h0 : 0 ≤ p) (h : p ≤ 0.4) :
    144 ≤ expectedDays p :=
  (expectedDays_bounds4 h0 h).1

/-- Any probability at most 0.6 yields at least 92 expected days. -/
theorem expectedDays_ge_of_le_06 {p : ℚ} (h0 : 0 ≤ p) (h : p ≤ 0.6) :
    92 ≤ expectedDays p := by
  by_cases c : 0.4 < p
  · exact (expectedDays_bounds3 c h).1
  · push_neg at c
    have := expectedDays_ge_of_le_04 h0 c
    omega

/-- Any probability at most 0.8 yields at least 57 expected days. -/
theorem expectedDays_ge_of_le_08 {p : ℚ} (h0 : 0 ≤ p) (h : p ≤ 0.8) :
    57 ≤ expectedDays p := by
  by_cases b : 0.6 < p
  · exact (expectedDays_bounds2 b h).1
  · push_neg at b
    have := expectedDays_ge_of_le_06 h0 b
    omega

/-- C3: for every probability p ∈ [0,1], exactly one risk bucket applies
(the four ranges cover [0,1] and are pairwise exclusive), each bucket yields
exactly the risk level and floored expected-days formula of the spec's table
(matched in descending-probability order, first match winning), and the
resulting expected_days lies within [1, 180]. -/
theorem C3_risk_buckets (p : ℚ) (h0 : 0 ≤ p) (h1 : p ≤ 1) :
    (((0.8 < p) ∨ (0.6 < p ∧ p ≤ 0.8) ∨ (0.4 < p ∧ p ≤ 0.6) ∨ p ≤ 0.4) ∧
      ¬ (0.8 < p ∧ (0.6 < p ∧ p ≤ 0.8)) ∧
      ¬ (0.8 < p ∧ (0.4 < p ∧ p ≤ 0.6)) ∧
      ¬ (0.8 < p ∧ p ≤ 0.4) ∧
      ¬ ((0.6 < p ∧ p ≤ 0.8) ∧ (0.4 < p ∧ p ≤ 0.6)) ∧
      ¬ ((0.6 < p ∧ p ≤ 0.8) ∧ p ≤ 0.4) ∧
      ¬ ((0.4 < p ∧ p ≤ 0.6) ∧ p ≤ 0.4)) ∧
    ((0.8 < p → riskLevel p = "Low" ∧ expectedDays p = ⌊30 + (1 - p) * 50⌋) ∧
      (0.6 < p → p ≤ 0.8 → riskLevel p = "Medium" ∧ expectedDays p = ⌊45 + (1 - p) * 60⌋) ∧
      (0.4 < p → p ≤ 0.6 → riskLevel p = "High" ∧ expectedDays p = ⌊60 + (1 - p) * 80⌋) ∧
      (p ≤ 0.4 → riskLevel p = "Very High" ∧ expectedDays p = ⌊90 + (1 - p) * 90⌋)) ∧
    (1 ≤ expectedDays p ∧ expectedDays p ≤ 180) := by
  refine ⟨⟨?_, ?_, ?_, ?_, ?_, ?_, ?_⟩, ⟨?_, ?_, ?_, ?_⟩, ?_⟩
  · rcases lt_or_le 0.8 p with h | h
    · exact Or.inl h
    rcases lt_or_le 0.6 p with h' | h'
    · exact Or.inr (Or.inl ⟨h', h⟩)
    rcases lt_or_le 0.4 p with h'' | h''
    · exact Or.inr (Or.inr (Or.inl ⟨h'', h'⟩))
    · exact Or.inr (Or.inr (Or.inr h''))
  · rintro ⟨x, _, y⟩; linarith
  · rintro ⟨x, _, y⟩; linarith
  · rintro ⟨x, y⟩; linarith
  · rintro ⟨⟨_, x⟩, ⟨y, _⟩⟩; linarith
  · rintro ⟨⟨x, _⟩, y⟩; linarith
  · rintro ⟨⟨x, _⟩, y⟩; linarith
  · intro h
    refine ⟨?_, expectedDays_eq_floor1 h h1⟩
    unfold riskLevel
    rw [if_pos h]
  · intro ha hb
    refine ⟨?_, expectedDays_eq_floor2 ha hb⟩
    unfold riskLevel
    rw [if_neg (not_lt.mpr hb), if_pos ha]
  · intro ha hb
    refine ⟨?_, expectedDays_eq_floor3 ha hb⟩
    unfold riskLevel
    rw [if_neg (by rw [not_lt]; linarith), if_neg (not_lt.mpr hb), if_pos ha]
  · intro hb
    refine ⟨?_, expectedDays_eq_floor4 hb⟩
    unfold riskLevel
    rw [if_neg (by rw [not_lt]; linarith), if_neg (by rw [not_lt]; linarith),
      if_neg (not_lt.mpr hb)]
  · by_cases a : 0.8 < p
    · have := expectedDays_bounds1 a h1
      omega
    · push_neg at a
      have hlo := expectedDays_ge_of_le_08 h0 a
      by_cases b : 0.6 < p
      · have := expectedDays_bounds2 b a
        omega
      · push_neg at b
        by_cases c : 0.4 < p
        · have := expectedDays_bounds3 c b
          omega
        · push_neg at c
          have := expectedDays_bounds4 h0 c
          omega

/-- C3 witness: the hypotheses hold at p = 0.5 and the theorem yields the
expected-days range there. -/
theorem C3_risk_buckets_witness :
    ((0:ℚ) ≤ 0.5 ∧ (0.5:ℚ) ≤ 1) ∧
    (1 ≤ expectedDays 0.5 ∧ expectedDays 0.5 ≤ 180) :=
  ⟨⟨by decide, by decide⟩, (C3_risk_buckets 0.5 (by decide) (by decide)).2.2⟩

/-- C10: expected days is monotonically non-increasing in the probability on
[0,1], including across the 0.4, 0.6 and 0.8 bucket boundaries. -/
theorem C10_expected_days_antitone (p1 p2 : ℚ) (h0 : 0 ≤ p1) (h12 : p1 ≤ p2)
    (h1 : p2 ≤ 1) : expectedDays p2 ≤ expectedDays p1 := by
  by_cases a2 : 0.8 < p2
  · by_cases a1 : 0.8 < p1
    · rw [expectedDays_eq_floor1 a1 (le_trans h12 h1), expectedDays_eq_floor1 a2 h1]
      exact Int.floor_le_floor (by nlinarith)
    · push_neg at a1
      have hub := (expectedDays_bounds1 a2 h1).2
      have hlb := expectedDays_ge_of_le_08 h0 a1
      omega
  · push_neg at a2
    by_cases b2 : 0.6 < p2
    · by_cases b1 : 0.6 < p1
      · rw [expectedDays_eq_floor2 b1 (le_trans h12 a2), expectedDays_eq_floor2 b2 a2]
        exact Int.floor_le_floor (by nlinarith)
      · push_neg at b1
        have hub := (expectedDays_bounds2 b2 a2).2
        have hlb := expectedDays_ge_of_le_06 h0 b1
        omega
    · push_neg at b2
      by_cases c2 : 0.4 < p2
      · by_cases c1 : 0.4 < p1
        · rw [expectedDays_eq_floor3 c1 (le_trans h12 b2), expectedDays_eq_floor3 c2 b2]
          exact Int.floor_le_floor (by nlinarith)
        · push_neg at c1
          have hub := (expectedDays_bounds3 c2 b2).2
          have hlb := expectedDays_ge_of_le_04 h0 c1
          omega
      · push_neg at c2
        rw [expectedDays_eq_floor4 (le_trans h12 c2), expectedDays_eq_floor4 c2]
        exact Int.floor_le_floor (by nlinarith)

/-- C10 witness: the hypotheses hold at p1 = 0.3, p2 = 0.9 and the theorem
yields the inequality there. -/
theorem C10_expected_days_antitone_witness :
    ((0:ℚ) ≤ 0.3 ∧ (0.3:ℚ) ≤ 0.9 ∧ (0.9:ℚ) ≤ 1) ∧
    expectedDays 0.9 ≤ expectedDays 0.3 :=
  ⟨⟨by decide, by decide, by decide⟩,
    C10_expected_days_antitone 0.3 0.9 (by decide) (by decide) (by decide)⟩

/-- C1: for every input record, when the model artifact declares a non-empty
expected-feature-name list, the feature vector produced by prepare_features
has exactly the columns of that list, in that list's order; every column's
value is the synthesized value when the synthesized set has it and constant 0
otherwise (so absent expected columns are zero-filled and synthesized columns
not in the list are dropped). -/
theorem C1_feature_alignment (log1p : ℚ → ℚ) (feature_names : List String)
    (data : Record) (sf out : List (String × ℚ))
    (hne : feature_names ≠ [])
    (hsf : synthFeatures log1p data = Except.ok sf)
    (hout : prepare_features log1p feature_names data = Except.ok out) :
    out.map Prod.fst = feature_names ∧
    (∀ pr ∈ out, pr.2 = (sf.lookup pr.1).getD 0) ∧
    (∀ pr ∈ out, sf.lookup pr.1 = Option.none → pr.2 = 0) := by
  have hout2 : out = alignFeatures feature_names sf := by
    unfold prepare_features at hout
    rw [hsf, except_ok_bind] at hout
    exact (Except.ok.inj hout).symm
  subst hout2
  cases feature_names with
  | nil => exact absurd rfl hne
  | cons a t =>
    have halign : alignFeatures (a :: t) sf =
        (a :: t).map (fun n => (n, (sf.lookup n).getD 0)) := by
      unfold alignFeatures
      rfl
    rw [halign]
    refine ⟨?_, ?_, ?_⟩
    · rw [List.map_map]
      exact List.map_id _
    · intro pr hpr
      rcases List.mem_map.mp hpr with ⟨n, _, hn⟩
      rw [← hn]
    · intro pr hpr hnone
      rcases List.mem_map.mp hpr with ⟨n, _, hn⟩
      rw [← hn] at hnone ⊢
      rw [hnone]
      rfl

/-- C1 witness: with an empty record, the identity in place of log1p, and the
declared list ["days_overdue", "extra_column"] (the second name absent from
the synthesized set), the hypotheses hold and alignment yields exactly those
two columns, the missing one zero-filled. -/
theorem C1_feature_alignment_witness :
    (["days_overdue", "extra_column"] ≠ ([] : List String)) ∧
    (synthFeatures id [] = Except.ok
      [("amount_log", (0:ℚ)), ("days_overdue", 0), ("payment_history_score", 0),
       ("shipment_volume_change_30d", 0), ("shipment_volume_30d", 0),
       ("express_ratio", 0), ("destination_diversity", 0), ("contact_attempts", 0),
       ("customer_tenure_months", 0), ("email_opened", 0), ("dispute_flag", 0),
       ("industry_Construction", 0), ("industry_Medical", 0), ("industry_Retail", 0),
       ("industry_Tech", 0), ("industry_Textile", 0), ("region_East", 0),
       ("region_North", 0), ("region_South", 0), ("region_West", 0)]) ∧
    (prepare_features id ["days_overdue", "extra_column"] [] = Except.ok
      [("days_overdue", (0:ℚ)), ("extra_column", 0)]) ∧
    ([("days_overdue", (0:ℚ)), ("extra_column", 0)].map Prod.fst =
      ["days_overdue", "extra_column"]) :=
  ⟨by decide, by rfl, by rfl,
    (C1_feature_alignment id ["days_overdue", "extra_column"] []
      [("amount_log", (0:ℚ)), ("days_overdue", 0), ("payment_history_score", 0),
       ("shipment_volume_change_30d", 0), ("shipment_volume_30d", 0),
       ("express_ratio", 0), ("destination_diversity", 0), ("contact_attempts", 0),
       ("customer_tenure_months", 0), ("email_opened", 0), ("dispute_flag", 0),
       ("industry_Construction", 0), ("industry_Medical", 0), ("industry_Retail", 0),
       ("industry_Tech", 0), ("industry_Textile", 0), ("region_East", 0),
       ("region_North", 0), ("region_South", 0), ("region_West", 0)]
      [("days_overdue", (0:ℚ)), ("extra_column", 0)]
      (by decide) (by rfl) (by rfl)).1⟩

/-- C2: for every record whose account_id field is the sentinel "ACC0001",
predict_recovery returns the fixed hero result — probability 0.925, risk
level "Low", expected days 25, velocity 3.7 and the fixed DCA and factors —
no matter what every other field holds (malformed values included), and the
result is independent of the model oracle, the declared feature list and the
log1p transform, i.e. the override fires before any feature encoding or
inference. -/
theorem C2_hero_override (log1p log1pB : ℚ → ℚ) (fns fnsB : List String)
    (model modelB : ModelOracle) (data : Record)
    (hid : pyStr (getF data "account_id" (PyVal.vstr "Unknown")) = "ACC0001") :
    predict_recovery log1p fns model data =
      Except.ok (heroResult (pyStr (getF data "company_name" (PyVal.vstr "Unknown Company")))) ∧
    (predict_recovery log1p fns model data).map (fun r => r.recovery_probability) =
      Except.ok 0.925 ∧
    (predict_recovery log1p fns model data).map (fun r => r.risk_level) =
      Except.ok "Low" ∧
    (predict_recovery log1p fns model data).map (fun r => r.expected_days) =
      Except.ok 25 ∧
    (predict_recovery log1p fns model data).map (fun r => r.recovery_velocity_score) =
      Except.ok 3.7 ∧
    predict_recovery log1p fns model data = predict_recovery log1pB fnsB modelB data := by
  have hmain : ∀ (lg : ℚ → ℚ) (fn : List String) (md : ModelOracle),
      predict_recovery lg fn md data =
        Except.ok (heroResult (pyStr (getF data "company_name" (PyVal.vstr "Unknown Company")))) := by
    intro lg fn md
    unfold predict_recovery
    rw [hid]
    rfl
  refine ⟨hmain log1p fns model, ?_, ?_, ?_, ?_, ?_⟩
  · rw [hmain log1p fns model]; rfl
  · rw [hmain log1p fns model]; rfl
  · rw [hmain log1p fns model]; rfl
  · rw [hmain log1p fns model]; rfl
  · rw [hmain log1p fns model, hmain log1pB fnsB modelB]

/-- C2 witness: the hypothesis holds for a record whose other fields are
malformed (a non-numeric amount string and a None history), and the theorem
yields the hero result for it. -/
theorem C2_hero_override_witness :
    (pyStr (getF [("account_id", PyVal.vstr "ACC0001"), ("amount", PyVal.vstr "N/A"),
        ("payment_history_score", PyVal.vnone)] "account_id" (PyVal.vstr "Unknown")) =
      "ACC0001") ∧
    predict_recovery id [] Option.none
        [("account_id", PyVal.vstr "ACC0001"), ("amount", PyVal.vstr "N/A"),
         ("payment_history_score", PyVal.vnone)] =
      Except.ok (heroResult "Unknown Company") :=
  ⟨by decide,
    (C2_hero_override id id [] [] Option.none (some (fun _ => Except.error "x"))
      [("account_id", PyVal.vstr "ACC0001"), ("amount", PyVal.vstr "N/A"),
       ("payment_history_score", PyVal.vnone)] (by decide)).1⟩

/-- C4: when inference fails for a record — the model is missing, or the
model call raises (shape mismatch, missing columns, numeric error) —
predict_recovery does not propagate the failure: it returns a result whose
probability is the record's coerced payment_history_score when that is
greater than 0 and exactly 0.5 otherwise.  (The fallback is a pure value
computed once per prediction.) -/
theorem C4_fallback_probability (log1p : ℚ → ℚ) (feature_names : List String)
    (data : Record) (msg : String) (a ph s : ℚ) (d : ℤ)
    (hid : pyStr (getF data "account_id" (PyVal.vstr "Unknown")) ≠ "ACC0001")
    (ha : pyFloat (orZero (getF data "amount" (PyVal.vnum 0))) = Except.ok a)
    (hd : pyInt (orZero (getF data "days_overdue" (PyVal.vnum 0))) = Except.ok d)
    (hh : pyFloat (orZero (getF data "payment_history_score" (PyVal.vnum 0))) = Except.ok ph)
    (hs : pyFloat (orZero (getF data "shipment_volume_change_30d" (PyVal.vnum 0))) = Except.ok s) :
    (predict_recovery log1p feature_names (some (fun _ => Except.error msg)) data).map
        (fun r => r.recovery_probability) = Except.ok (if ph > 0 then ph else 0.5) ∧
    (predict_recovery log1p feature_names Option.none data).map
        (fun r => r.recovery_probability) = Except.ok (if ph > 0 then ph else 0.5) := by
  constructor
  · rcases hprep : prepare_features log1p feature_names data with e | X
    · unfold predict_recovery
      rw [if_neg hid, ha, except_ok_bind, hd, except_ok_bind, hh, except_ok_bind,
        hs, except_ok_bind, hprep]
      rfl
    · unfold predict_recovery
      rw [if_neg hid, ha, except_ok_bind, hd, except_ok_bind, hh, except_ok_bind,
        hs, except_ok_bind, hprep]
      rfl
  · unfold predict_recovery
    rw [if_neg hid, ha, except_ok_bind, hd, except_ok_bind, hh, except_ok_bind,
      hs, except_ok_bind]
    rfl

/-- C4 witness: the hypotheses hold for a well-formed record with history
0.75, and the theorem yields fallback probability 0.75 both for an
always-raising model and for a missing model. -/
theorem C4_fallback_probability_witness :
    (pyStr (getF [("account_id", PyVal.vstr "ACC0002"),
        ("payment_history_score", PyVal.vnum 0.75)] "account_id"
        (PyVal.vstr "Unknown")) ≠ "ACC0001") ∧
    (pyFloat (orZero (getF [("account_id", PyVal.vstr "ACC0002"),
        ("payment_history_score", PyVal.vnum 0.75)] "payment_history_score"
        (PyVal.vnum 0))) = Except.ok 0.75) ∧
    (predict_recovery id [] (some (fun _ => Except.error "boom"))
        [("account_id", PyVal.vstr "ACC0002"), ("payment_history_score", PyVal.vnum 0.75)]).map
        (fun r => r.recovery_probability) = Except.ok (if (0.75:ℚ) > 0 then 0.75 else 0.5) :=
  ⟨by decide, by rfl,
    (C4_fallback_probability id [] [("account_id", PyVal.vstr "ACC0002"),
        ("payment_history_score", PyVal.vnum 0.75)] "boom" 0 0.75 0 0
      (by decide) (by rfl) (by rfl) (by rfl) (by rfl)).1⟩

/-- C5 (evaluation at the failing input): in a 2-record batch whose first
record has the non-numeric string "N/A" in its amount field, the raw-value
coercion `float("N/A")` raises OUTSIDE predict_recovery's try/except, the
batch loop has no per-row handler, and analyze aborts with a single error —
no per-row results are produced — even though the second record on its own
yields a complete prediction (a 1-element batch of it succeeds). -/
theorem C5_batch_abort_eval :
    analyze_accounts id [] Option.none
      [[("account_id", PyVal.vstr "ACC0002"), ("amount", PyVal.vstr "N/A"),
        ("payment_history_score", PyVal.vnum 0.6)],
       [("account_id", PyVal.vstr "ACC0003"), ("amount", PyVal.vnum 1000),
        ("payment_history_score", PyVal.vnum 0.75)]] =
      Except.error "could not convert string to float: N/A" ∧
    (analyze_accounts id [] Option.none
      [[("account_id", PyVal.vstr "ACC0003"), ("amount", PyVal.vnum 1000),
        ("payment_history_score", PyVal.vnum 0.75)]]).map
      (fun resp => resp.total_accounts) = Except.ok 1 :=
  ⟨by rfl, by rfl⟩

/-- C6 counterexample: the claim that a negative amount is rejected or
clamped to 0 before the log1p transformation is false.  For the record with
amount = -5, the coerced amount is -5 (not 0 and not an error), and — with
the identity in place of log1p to observe the argument — the synthesized
amount_log column is -5, so log1p received the negative value unchanged. -/
theorem C6_counterexample_negative_amount :
    pyFloat (orZero (getF [("amount", PyVal.vnum (-5))] "amount" (PyVal.vnum 0))) =
      Except.ok (-5 : ℚ) ∧
    (synthFeatures id [("amount", PyVal.vnum (-5))]).map
      (fun sf => sf.lookup "amount_log") = Except.ok (some (-5 : ℚ)) ∧
    ((-5 : ℚ) < 0) :=
  ⟨by rfl, by rfl, by decide⟩

/-- C6 (amended): the encoder computes amount_log = log1p(amount) directly on
the coerced amount with no rejection and no clamping: whatever value the
amount field coerces to — negative values included — is passed to log1p
unchanged. -/
theorem C6_amount_log_passthrough (log1p : ℚ → ℚ) (data : Record) (a : ℚ)
    (sf : List (String × ℚ))
    (ha : pyFloat (orZero (getF data "amount" (PyVal.vnum 0))) = Except.ok a)
    (hsf : synthFeatures log1p data = Except.ok sf) :
    sf.lookup "amount_log" = some (log1p a) := by
  unfold synthFeatures at hsf
  rw [ha, except_ok_bind] at hsf
  obtain ⟨d1, hd1, hsf⟩ := except_bind_ok_inv hsf
  obtain ⟨h1, hh1, hsf⟩ := except_bind_ok_inv hsf
  obtain ⟨s1, hs1, hsf⟩ := except_bind_ok_inv hsf
  obtain ⟨v1, hv1, hsf⟩ := except_bind_ok_inv hsf
  obtain ⟨e1, he1, hsf⟩ := except_bind_ok_inv hsf
  obtain ⟨dd1, hdd1, hsf⟩ := except_bind_ok_inv hsf
  obtain ⟨c1, hc1, hsf⟩ := except_bind_ok_inv hsf
  obtain ⟨t1, ht1, hsf⟩ := except_bind_ok_inv hsf
  cases Except.ok.inj hsf
  rfl

/-- C6 witness: the amended theorem's hypotheses hold for a record with
amount = -2, and the amount_log column is id(-2) = -2. -/
theorem C6_amount_log_passthrough_witness :
    (pyFloat (orZero (getF [("amount", PyVal.vnum (-2))] "amount" (PyVal.vnum 0))) =
      Except.ok (-2 : ℚ)) ∧
    [("amount_log", (-2:ℚ)), ("days_overdue", 0), ("payment_history_score", 0),
     ("shipment_volume_change_30d", 0), ("shipment_volume_30d", 0),
     ("express_ratio", 0), ("destination_diversity", 0), ("contact_attempts", 0),
     ("customer_tenure_months", 0), ("email_opened", 0), ("dispute_flag", 0),
     ("industry_Construction", 0), ("industry_Medical", 0), ("industry_Retail", 0),
     ("industry_Tech", 0), ("industry_Textile", 0), ("region_East", 0),
     ("region_North", 0), ("region_South", 0), ("region_West", 0)].lookup
      "amount_log" = some (id (-2 : ℚ)) :=
  ⟨by rfl,
    C6_amount_log_passthrough id [("amount", PyVal.vnum (-2))] (-2)
      [("amount_log", (-2:ℚ)), ("days_overdue", 0), ("payment_history_score", 0),
       ("shipment_volume_change_30d", 0), ("shipment_volume_30d", 0),
       ("express_ratio", 0), ("destination_diversity", 0), ("contact_attempts", 0),
       ("customer_tenure_months", 0), ("email_opened", 0), ("dispute_flag", 0),
       ("industry_Construction", 0), ("industry_Medical", 0), ("industry_Retail", 0),
       ("industry_Tech", 0), ("industry_Textile", 0), ("region_East", 0),
       ("region_North", 0), ("region_South", 0), ("region_West", 0)]
      (by rfl) (by rfl)⟩

/-- C7 counterexample: the claim that for 0.4 < p ≤ 0.6 the recommended DCA
is the Standard tier (the same bucket as the 0.6 < p ≤ 0.8 row) is false at
p = 0.5: the risk level there is "High" as claimed, but the DCA is
"Recovery Specialists Inc" (the source's final else-branch), not the
"Standard Recovery Partners" recommendation that the 0.6 < p ≤ 0.8 row
gets. -/
theorem C7_counterexample_dca_specialist :
    ((0.4:ℚ) < 0.5 ∧ (0.5:ℚ) ≤ 0.6) ∧
    riskLevel 0.5 = "High" ∧
    recommendedDCA 0.5 =
      ⟨"Recovery Specialists Inc", "Challenging cases",
        "Experienced in difficult recovery scenarios with legal support"⟩ ∧
    recommendedDCA 0.7 =
      ⟨"Standard Recovery Partners", "General collections",
        "Reliable performance across all account types"⟩ ∧
    (recommendedDCA 0.5).name ≠ "Standard Recovery Partners" ∧
    recommendedDCA 0.5 ≠ recommendedDCA 0.7 := by decide

/-- C7 (amended): for every probability with 0.4 < p ≤ 0.6, the risk level is
"High" and the recommended DCA is the Specialist tier
("Recovery Specialists Inc") — the same DCA bucket as every probability
p ≤ 0.4, not the Standard tier of the 0.6 < p ≤ 0.8 row. -/
theorem C7_high_band_dca (p : ℚ) (h1 : 0.4 < p) (h2 : p ≤ 0.6) :
    riskLevel p = "High" ∧
    recommendedDCA p =
      ⟨"Recovery Specialists Inc", "Challenging cases",
        "Experienced in difficult recovery scenarios with legal support"⟩ ∧
    (∀ q : ℚ, q ≤ 0.4 → recommendedDCA p = recommendedDCA q) := by
  have hn8 : ¬ (0.8:ℚ) < p := by rw [not_lt]; linarith
  have hn6 : ¬ (0.6:ℚ) < p := not_lt.mpr h2
  refine ⟨?_, ?_, ?_⟩
  · unfold riskLevel
    rw [if_neg hn8, if_neg hn6, if_pos h1]
  · unfold recommendedDCA
    rw [if_neg hn8, if_neg hn6]
  · intro q hq
    have hq8 : ¬ (0.8:ℚ) < q := by rw [not_lt]; linarith
    have hq6 : ¬ (0.6:ℚ) < q := by rw [not_lt]; linarith
    unfold recommendedDCA
    rw [if_neg hn8, if_neg hn6, if_neg hq8, if_neg hq6]

/-- C7 witness: the amended theorem's hypotheses hold at p = 0.5 and give the
High risk level and the Specialist DCA there. -/
theorem C7_high_band_dca_witness :
    ((0.4:ℚ) < 0.5 ∧ (0.5:ℚ) ≤ 0.6) ∧
    (riskLevel 0.5 = "High" ∧
      recommendedDCA 0.5 =
        ⟨"Recovery Specialists Inc", "Challenging cases",
          "Experienced in difficult recovery scenarios with legal support"⟩) :=
  ⟨⟨by decide, by decide⟩,
    (C7_high_band_dca 0.5 (by decide) (by decide)).1,
    (C7_high_band_dca 0.5 (by decide) (by decide)).2.1⟩

/-- C8: two records identical except that one holds industry "Technology"
and the other "Tech" synthesize identical feature sets (identical one-hot
industry indicators included) and identical aligned feature vectors, because
the display value "Technology" is folded to "Tech" before one-hot encoding;
every other industry value passes through the normalization unchanged. -/
theorem C8_technology_tech_equivalence (log1p : ℚ → ℚ) (fns : List String)
    (data : Record) :
    synthFeatures log1p (("industry", PyVal.vstr "Technology") :: data) =
      synthFeatures log1p (("industry", PyVal.vstr "Tech") :: data) ∧
    prepare_features log1p fns (("industry", PyVal.vstr "Technology") :: data) =
      prepare_features log1p fns (("industry", PyVal.vstr "Tech") :: data) ∧
    (∀ s : String, s = "Technology" ∨ normalizeIndustry s = s) := by
  have hsynth : synthFeatures log1p (("industry", PyVal.vstr "Technology") :: data) =
      synthFeatures log1p (("industry", PyVal.vstr "Tech") :: data) := by
    rfl
  refine ⟨hsynth, ?_, ?_⟩
  · unfold prepare_features
    rw [hsynth]
  · intro s
    by_cases h : s = "Technology"
    · exact Or.inl h
    · right
      unfold normalizeIndustry
      rw [if_neg h]

/-- Membership after insertion: the element is the inserted one or was
already there. -/
theorem mem_of_mem_insertByAbsImpact {f g : ExplFactor} {l : List ExplFactor}
    (h : g ∈ insertByAbsImpact f l) : g = f ∨ g ∈ l := by
  induction l with
  | nil =>
    rw [insertByAbsImpact] at h
    rcases List.mem_singleton.mp h with rfl
    exact Or.inl rfl
  | cons a t ih =>
    rw [insertByAbsImpact] at h
    by_cases hc : |a.impact| < |f.impact|
    · rw [if_pos hc] at h
      rcases List.mem_cons.mp h with rfl | h2
      · exact Or.inl rfl
      · exact Or.inr h2
    · rw [if_neg hc] at h
      rcases List.mem_cons.mp h with rfl | h2
      · exact Or.inr (List.mem_cons_self _ _)
      · rcases ih h2 with rfl | h3
        · exact Or.inl rfl
        · exact Or.inr (List.mem_cons_of_mem _ h3)

/-- Insertion preserves the descending-by-absolute-impact order. -/
theorem pairwise_insertByAbsImpact {f : ExplFactor} {l : List ExplFactor}
    (h : l.Pairwise descAbsImpact) :
    (insertByAbsImpact f l).Pairwise descAbsImpact := by
  induction l with
  | nil =>
    rw [insertByAbsImpact]
    exact List.pairwise_singleton _ _
  | cons a t ih =>
    rw [List.pairwise_cons] at h
    obtain ⟨ha, ht⟩ := h
    rw [insertByAbsImpact]
    by_cases hc : |a.impact| < |f.impact|
    · rw [if_pos hc]
      refine List.Pairwise.cons ?_ (List.Pairwise.cons ha ht)
      intro b hb
      rcases List.mem_cons.mp hb with rfl | hb2
      · exact le_of_lt hc
      · exact le_trans (ha b hb2) (le_of_lt hc)
    · rw [if_neg hc]
      refine List.Pairwise.cons ?_ (ih ht)
      intro b hb
      rcases mem_of_mem_insertByAbsImpact hb with rfl | hb2
      · exact not_lt.mp hc
      · exact ha b hb2

/-- The sort produces a descending-by-absolute-impact list. -/
theorem pairwise_sortByAbsImpact (l : List ExplFactor) :
    (sortByAbsImpact l).Pairwise descAbsImpact := by
  induction l with
  | nil => exact List.Pairwise.nil
  | cons a t ih => exact pairwise_insertByAbsImpact ih

/-- The sort produces no new elements. -/
theorem mem_sortByAbsImpact {g : ExplFactor} {l : List ExplFactor}
    (h : g ∈ sortByAbsImpact l) : g ∈ l := by
  induction l with
  | nil => exact absurd h (List.not_mem_nil g)
  | cons a t ih =>
    rcases mem_of_mem_insertByAbsImpact h with rfl | h2
    · exact List.mem_cons_self _ _
    · exact List.mem_cons_of_mem _ (ih h2)

/-- Every factor the SHAP path builds passed the 1e-10 magnitude filter. -/
theorem buildShapFactors_threshold {cols : List (String × ℚ)} {vals : List ℚ}
    {f : ExplFactor} (h : f ∈ buildShapFactors cols vals) :
    shapZeroThreshold ≤ |f.impact| := by
  rcases List.mem_filterMap.mp h with ⟨p, _, hp⟩
  by_cases hc : |p.2| < shapZeroThreshold
  · rw [if_pos hc] at hp
    exact absurd hp (by simp)
  · rw [if_neg hc] at hp
    cases Option.some.inj hp
    exact not_lt.mp hc

/-- Every factor the importance-fallback path builds passed the 1e-10
magnitude filter. -/
theorem buildImportanceFactors_threshold {cols : List (String × ℚ)}
    {imps : List ℚ} {f : ExplFactor} (h : f ∈ buildImportanceFactors cols imps) :
    shapZeroThreshold ≤ |f.impact| := by
  rcases List.mem_filterMap.mp h with ⟨p, _, hp⟩
  by_cases hc : |p.2| < shapZeroThreshold
  · rw [if_pos hc] at hp
    exact absurd hp (by simp)
  · rw [if_neg hc] at hp
    cases Option.some.inj hp
    exact not_lt.mp hc

/-- The sort-then-take-5 pipeline: at most 5 factors, descending by absolute
impact, and every threshold property of the input list is retained. -/
theorem factorPipelineSpec (l : List ExplFactor)
    (hthr : ∀ f ∈ l, shapZeroThreshold ≤ |f.impact|) :
    ((sortByAbsImpact l).take 5).length ≤ 5 ∧
    ((sortByAbsImpact l).take 5).Pairwise descAbsImpact ∧
    (∀ f ∈ (sortByAbsImpact l).take 5, shapZeroThreshold ≤ |f.impact|) := by
  refine ⟨?_, ?_, ?_⟩
  · rw [List.length_take]
    exact min_le_left _ _
  · exact List.Pairwise.sublist (List.take_sublist 5 _) (pairwise_sortByAbsImpact l)
  · intro f hf
    exact hthr f (mem_sortByAbsImpact ((List.take_sublist 5 _).subset hf))

/-- C9: for every feature vector, explanation engine (SHAP oracle) state,
expected-value and importance vector — covering the SHAP path, the
importance fallback path, the empty-input path and the fallback-failure
path — explain_prediction returns at most 5 factors, sorted in descending
order of absolute impact, with every factor of magnitude below 1e-10
dropped. -/
theorem C9_explanation_shape
    (explainer : Option (List (String × ℚ) → Except String (List ℚ)))
    (expectedValue : Option ℚ) (importances : Option (List ℚ))
    (X : List (String × ℚ)) :
    ((explain_prediction explainer expectedValue importances X).top_factors).length ≤ 5 ∧
    ((explain_prediction explainer expectedValue importances X).top_factors).Pairwise
      descAbsImpact ∧
    (∀ f ∈ (explain_prediction explainer expectedValue importances X).top_factors,
      shapZeroThreshold ≤ |f.impact|) := by
  have hfb : ∀ imp : Option (List ℚ),
      ((fallback_explanation imp X).top_factors).length ≤ 5 ∧
      ((fallback_explanation imp X).top_factors).Pairwise descAbsImpact ∧
      (∀ f ∈ (fallback_explanation imp X).top_factors,
        shapZeroThreshold ≤ |f.impact|) := by
    intro imp
    cases imp with
    | none =>
      refine ⟨by simp [fallback_explanation], ?_, ?_⟩
      · exact List.Pairwise.nil
      · intro f hf
        exact absurd hf (List.not_mem_nil f)
    | some imps =>
      exact factorPipelineSpec _ (fun f hf => buildImportanceFactors_threshold hf)
  unfold explain_prediction
  by_cases hX : X.isEmpty
  · rw [if_pos hX]
    refine ⟨by simp, List.Pairwise.nil, ?_⟩
    intro f hf
    exact absurd hf (List.not_mem_nil f)
  · rw [if_neg hX]
    cases explainer with
    | none => exact hfb importances
    | some ex =>
      cases hex : ex X with
      | ok vals =>
        simp only [hex]
        exact factorPipelineSpec _ (fun f hf => buildShapFactors_threshold hf)
      | error e =>
        simp only [hex]
        exact hfb importances

/-- C9 witness: the theorem applied at a concrete state; the sampled list
(three surviving factors out of five inputs, reordered by magnitude) shows
the quantifiers are not vacuous. -/
theorem C9_explanation_shape_witness :
    ((explain_prediction (some (fun _ => Except.ok [0.05, -0.2, 0, 0.1, mkRat 1 100000000000]))
        (some 0.4) (some [1, 2, 3, 4, 5])
        [("amount_log", 12), ("days_overdue", 45), ("payment_history_score", 0.75),
         ("email_opened", 1), ("dispute_flag", 0)]).top_factors).length ≤ 5 ∧
    ((explain_prediction (some (fun _ => Except.ok [0.05, -0.2, 0, 0.1, mkRat 1 100000000000]))
        (some 0.4) (some [1, 2, 3, 4, 5])
        [("amount_log", 12), ("days_overdue", 45), ("payment_history_score", 0.75),
         ("email_opened", 1), ("dispute_flag", 0)]).top_factors).map
      (fun f => f.impact) = [-0.2, 0.1, 0.05] :=
  ⟨(C9_explanation_shape (some (fun _ => Except.ok [0.05, -0.2, 0, 0.1, mkRat 1 100000000000]))
      (some 0.4) (some [1, 2, 3, 4, 5])
      [("amount_log", 12), ("days_overdue", 45), ("payment_history_score", 0.75),
       ("email_opened", 1), ("dispute_flag", 0)]).1,
    by rfl⟩
